import Mathlib

/-!
# Verification of `rect_transformation_calculator.cc`

A shallow embedding of the rectangle-transformation calculator from
`mediapipe/calculators/util/rect_transformation_calculator.cc`, together
with theorems settling the specification claims about it.

C++ `float` arithmetic is modelled over the reals; the `int` image
dimensions are modelled as `ℤ` and cast into `ℝ` where the source
promotes them.  Proto2 optional fields whose presence the source tests
(`has_rotation`, `has_rotation_degrees`, `has_square_long`,
`has_square_short`) are modelled as `Option`; fields the source only
ever reads by value (`shift_x`, `shift_y`, `scale_x`, `scale_y`) are
modelled as plain reals holding the value-or-default the accessor
returns.
-/

namespace Mediapipe

/-- The absolute-pixel rectangle (`Rect` proto): center, size, rotation. -/
@[ext]
structure Rect where
  x_center : ℝ
  y_center : ℝ
  width : ℝ
  height : ℝ
  rotation : ℝ

/-- The image-normalized rectangle (`NormalizedRect` proto); same fields,
    coordinates are fractions of the image dimensions. -/
@[ext]
structure NormalizedRect where
  x_center : ℝ
  y_center : ℝ
  width : ℝ
  height : ℝ
  rotation : ℝ

/-- `RectTransformationCalculatorOptions`: the per-node configuration.
    `rotation`, `rotation_degrees`, `square_long`, `square_short` keep
    their proto2 presence bit (`Option`); `getD` supplies the proto
    default where the source reads the value. -/
structure RectTransformationCalculatorOptions where
  rotation : Option ℝ
  rotation_degrees : Option ℝ
  shift_x : ℝ
  shift_y : ℝ
  scale_x : ℝ
  scale_y : ℝ
  square_long : Option Bool
  square_short : Option Bool

abbrev Options := RectTransformationCalculatorOptions

/-- `NormalizeRadians`: wraps an angle, the source's
    `angle - 2 * M_PI * std::floor((angle - (-M_PI)) / (2 * M_PI))`. -/
noncomputable def NormalizeRadians (angle : ℝ) : ℝ :=
  angle - 2 * Real.pi * (⌊(angle - (-Real.pi)) / (2 * Real.pi)⌋ : ℤ)

/-- `RectTransformationCalculator::ComputeNewRotation`: add the configured
    delta (radians, or degrees converted via `M_PI * degrees / 180`) and
    wrap. -/
noncomputable def ComputeNewRotation (o : Options) (rotation : ℝ) : ℝ :=
  let rotation :=
    if o.rotation.isSome then rotation + o.rotation.getD 0
    else if o.rotation_degrees.isSome then
      rotation + Real.pi * o.rotation_degrees.getD 0 / 180
    else rotation
  NormalizeRadians rotation

/-- The effective rotation a transform works with: the source recomputes
    the local `rotation` variable only when a rotation option is present. -/
noncomputable def effectiveRotation (o : Options) (rotation : ℝ) : ℝ :=
  if o.rotation.isSome || o.rotation_degrees.isSome then
    ComputeNewRotation o rotation
  else rotation

/-- `RectTransformationCalculator::TransformRect`, absolute pixels.
    Note the source never calls `set_rotation`: the output's rotation
    field is the input's. -/
noncomputable def TransformRect (o : Options) (rect : Rect) : Rect :=
  let width := rect.width
  let height := rect.height
  let rotation := effectiveRotation o rect.rotation
  let x_center :=
    if rotation = 0 then rect.x_center + width * o.shift_x
    else rect.x_center +
      (width * o.shift_x * Real.cos rotation -
       height * o.shift_y * Real.sin rotation)
  let y_center :=
    if rotation = 0 then rect.y_center + height * o.shift_y
    else rect.y_center +
      (width * o.shift_x * Real.sin rotation +
       height * o.shift_y * Real.cos rotation)
  let width2 :=
    if o.square_long.getD false then max width height
    else if o.square_short.getD false then min width height
    else width
  let height2 :=
    if o.square_long.getD false then max width height
    else if o.square_short.getD false then min width height
    else height
  { x_center := x_center, y_center := y_center,
    width := width2 * o.scale_x, height := height2 * o.scale_y,
    rotation := rect.rotation }

/-- `RectTransformationCalculator::TransformNormalizedRect`: as above but
    shifts and squaring go through pixel space using the image size.
    The output's rotation field is again the input's. -/
noncomputable def TransformNormalizedRect (o : Options) (rect : NormalizedRect)
    (image_width image_height : ℤ) : NormalizedRect :=
  let width := rect.width
  let height := rect.height
  let rotation := effectiveRotation o rect.rotation
  let x_center :=
    if rotation = 0 then rect.x_center + width * o.shift_x
    else rect.x_center +
      (((image_width : ℝ) * width * o.shift_x * Real.cos rotation -
        (image_height : ℝ) * height * o.shift_y * Real.sin rotation) /
       (image_width : ℝ))
  let y_center :=
    if rotation = 0 then rect.y_center + height * o.shift_y
    else rect.y_center +
      (((image_width : ℝ) * width * o.shift_x * Real.sin rotation +
        (image_height : ℝ) * height * o.shift_y * Real.cos rotation) /
       (image_height : ℝ))
  let width2 :=
    if o.square_long.getD false then
      max (width * (image_width : ℝ)) (height * (image_height : ℝ)) / (image_width : ℝ)
    else if o.square_short.getD false then
      min (width * (image_width : ℝ)) (height * (image_height : ℝ)) / (image_width : ℝ)
    else width
  let height2 :=
    if o.square_long.getD false then
      max (width * (image_width : ℝ)) (height * (image_height : ℝ)) / (image_height : ℝ)
    else if o.square_short.getD false then
      min (width * (image_width : ℝ)) (height * (image_height : ℝ)) / (image_height : ℝ)
    else height
  { x_center := x_center, y_center := y_center,
    width := width2 * o.scale_x, height := height2 * o.scale_y,
    rotation := rect.rotation }

/-- `TransformRect` with the `rotation == 0` special case removed: the
    rotated-shift cos/sin formula is applied unconditionally. -/
noncomputable def TransformRectUnbranched (o : Options) (rect : Rect) : Rect :=
  let width := rect.width
  let height := rect.height
  let rotation := effectiveRotation o rect.rotation
  let x_center := rect.x_center +
    (width * o.shift_x * Real.cos rotation -
     height * o.shift_y * Real.sin rotation)
  let y_center := rect.y_center +
    (width * o.shift_x * Real.sin rotation +
     height * o.shift_y * Real.cos rotation)
  let width2 :=
    if o.square_long.getD false then max width height
    else if o.square_short.getD false then min width height
    else width
  let height2 :=
    if o.square_long.getD false then max width height
    else if o.square_short.getD false then min width height
    else height
  { x_center := x_center, y_center := y_center,
    width := width2 * o.scale_x, height := height2 * o.scale_y,
    rotation := rect.rotation }

/-- `TransformNormalizedRect` with the `rotation == 0` special case removed. -/
noncomputable def TransformNormalizedRectUnbranched (o : Options)
    (rect : NormalizedRect) (image_width image_height : ℤ) : NormalizedRect :=
  let width := rect.width
  let height := rect.height
  let rotation := effectiveRotation o rect.rotation
  let x_center := rect.x_center +
    (((image_width : ℝ) * width * o.shift_x * Real.cos rotation -
      (image_height : ℝ) * height * o.shift_y * Real.sin rotation) /
     (image_width : ℝ))
  let y_center := rect.y_center +
    (((image_width : ℝ) * width * o.shift_x * Real.sin rotation +
      (image_height : ℝ) * height * o.shift_y * Real.cos rotation) /
     (image_height : ℝ))
  let width2 :=
    if o.square_long.getD false then
      max (width * (image_width : ℝ)) (height * (image_height : ℝ)) / (image_width : ℝ)
    else if o.square_short.getD false then
      min (width * (image_width : ℝ)) (height * (image_height : ℝ)) / (image_width : ℝ)
    else width
  let height2 :=
    if o.square_long.getD false then
      max (width * (image_width : ℝ)) (height * (image_height : ℝ)) / (image_height : ℝ)
    else if o.square_short.getD false then
      min (width * (image_width : ℝ)) (height * (image_height : ℝ)) / (image_height : ℝ)
    else height
  { x_center := x_center, y_center := y_center,
    width := width2 * o.scale_x, height := height2 * o.scale_y,
    rotation := rect.rotation }

/-- `RectTransformationCalculator::Open`'s option validation: the two
    `RET_CHECK`s.  `true` means setup succeeds. -/
def OpenCheck (o : Options) : Bool :=
  !(o.rotation.isSome && o.rotation_degrees.isSome) &&
  !(o.square_long.isSome && o.square_short.isSome)

/-! ## Concrete inputs used for counterexamples and witnesses -/

/-- A configuration whose only effect is a rotation delta of `π` radians. -/
noncomputable def oRot : Options :=
  ⟨some Real.pi, none, 0, 0, 1, 1, none, none⟩

/-- A 10×10 rectangle at the origin with rotation 0. -/
noncomputable def rect0 : Rect := ⟨0, 0, 10, 10, 0⟩

/-- The spec's absolute example config: shift (1,0), scale (2,2). -/
noncomputable def cfg4 : Options := ⟨none, none, 1, 0, 2, 2, none, none⟩

/-- The spec's absolute example rect: center (0,0), 10×20, rotation 0. -/
noncomputable def rect4 : Rect := ⟨0, 0, 10, 20, 0⟩

/-- The spec's normalized example config: square-to-long-side, scale (1,1). -/
noncomputable def cfg3 : Options := ⟨none, none, 0, 0, 1, 1, some true, none⟩

/-- The spec's normalized example rect: center (0.5,0.5), 0.2×0.1. -/
noncomputable def nrect3 : NormalizedRect := ⟨0.5, 0.5, 0.2, 0.1, 0⟩

/-- A config with nonzero shifts and no rotation option. -/
noncomputable def cfgShift : Options := ⟨none, none, 1, 1, 1, 1, none, none⟩

/-- A non-square non-axis-aligned absolute rect (rotation `π`). -/
noncomputable def rectPi : Rect := ⟨1, 2, 3, 7, Real.pi⟩

/-- A normalized rect carrying rotation `π`. -/
noncomputable def nrectPi : NormalizedRect := ⟨0.25, 0.75, 0.2, 0.1, Real.pi⟩

/-- A configuration setting both rotation options, rejected at setup. -/
noncomputable def oBad : Options := ⟨some 1, some 2, 0, 0, 1, 1, none, none⟩

/-! ## Projection lemmas: the transforms field by field -/

lemma transformRect_x_center (o : Options) (r : Rect) :
    (TransformRect o r).x_center =
      if effectiveRotation o r.rotation = 0 then r.x_center + r.width * o.shift_x
      else r.x_center +
        (r.width * o.shift_x * Real.cos (effectiveRotation o r.rotation) -
         r.height * o.shift_y * Real.sin (effectiveRotation o r.rotation)) := rfl

lemma transformRect_y_center (o : Options) (r : Rect) :
    (TransformRect o r).y_center =
      if effectiveRotation o r.rotation = 0 then r.y_center + r.height * o.shift_y
      else r.y_center +
        (r.width * o.shift_x * Real.sin (effectiveRotation o r.rotation) +
         r.height * o.shift_y * Real.cos (effectiveRotation o r.rotation)) := rfl

lemma transformRect_width (o : Options) (r : Rect) :
    (TransformRect o r).width =
      (if o.square_long.getD false then max r.width r.height
       else if o.square_short.getD false then min r.width r.height
       else r.width) * o.scale_x := rfl

lemma transformRect_height (o : Options) (r : Rect) :
    (TransformRect o r).height =
      (if o.square_long.getD false then max r.width r.height
       else if o.square_short.getD false then min r.width r.height
       else r.height) * o.scale_y := rfl

lemma transformRect_rotation (o : Options) (r : Rect) :
    (TransformRect o r).rotation = r.rotation := rfl

lemma transformNormalizedRect_x_center (o : Options) (nr : NormalizedRect)
    (iw ih : ℤ) :
    (TransformNormalizedRect o nr iw ih).x_center =
      if effectiveRotation o nr.rotation = 0 then nr.x_center + nr.width * o.shift_x
      else nr.x_center +
        (((iw : ℝ) * nr.width * o.shift_x * Real.cos (effectiveRotation o nr.rotation) -
          (ih : ℝ) * nr.height * o.shift_y * Real.sin (effectiveRotation o nr.rotation)) /
         (iw : ℝ)) := rfl

lemma transformNormalizedRect_y_center (o : Options) (nr : NormalizedRect)
    (iw ih : ℤ) :
    (TransformNormalizedRect o nr iw ih).y_center =
      if effectiveRotation o nr.rotation = 0 then nr.y_center + nr.height * o.shift_y
      else nr.y_center +
        (((iw : ℝ) * nr.width * o.shift_x * Real.sin (effectiveRotation o nr.rotation) +
          (ih : ℝ) * nr.height * o.shift_y * Real.cos (effectiveRotation o nr.rotation)) /
         (ih : ℝ)) := rfl

lemma transformNormalizedRect_width (o : Options) (nr : NormalizedRect)
    (iw ih : ℤ) :
    (TransformNormalizedRect o nr iw ih).width =
      (if o.square_long.getD false then
        max (nr.width * (iw : ℝ)) (nr.height * (ih : ℝ)) / (iw : ℝ)
       else if o.square_short.getD false then
        min (nr.width * (iw : ℝ)) (nr.height * (ih : ℝ)) / (iw : ℝ)
       else nr.width) * o.scale_x := rfl

lemma transformNormalizedRect_height (o : Options) (nr : NormalizedRect)
    (iw ih : ℤ) :
    (TransformNormalizedRect o nr iw ih).height =
      (if o.square_long.getD false then
        max (nr.width * (iw : ℝ)) (nr.height * (ih : ℝ)) / (ih : ℝ)
       else if o.square_short.getD false then
        min (nr.width * (iw : ℝ)) (nr.height * (ih : ℝ)) / (ih : ℝ)
       else nr.height) * o.scale_y := rfl

lemma transformNormalizedRect_rotation (o : Options) (nr : NormalizedRect)
    (iw ih : ℤ) :
    (TransformNormalizedRect o nr iw ih).rotation = nr.rotation := rfl

/-! ## Helper lemmas about the wrap function -/

lemma normalizeRadians_arg (a : ℝ) :
    NormalizeRadians a =
      a - 2 * Real.pi * (⌊(a + Real.pi) / (2 * Real.pi)⌋ : ℤ) := by
  unfold NormalizeRadians
  rw [sub_neg_eq_add]

lemma normalizeRadians_lower (a : ℝ) : -Real.pi ≤ NormalizeRadians a := by
  have hpi : (0 : ℝ) < 2 * Real.pi := by positivity
  rw [normalizeRadians_arg]
  have h1 : ((⌊(a + Real.pi) / (2 * Real.pi)⌋ : ℤ) : ℝ) ≤
      (a + Real.pi) / (2 * Real.pi) := Int.floor_le _
  have h2 : ((⌊(a + Real.pi) / (2 * Real.pi)⌋ : ℤ) : ℝ) * (2 * Real.pi) ≤
      a + Real.pi := (le_div_iff₀ hpi).mp h1
  linarith

lemma normalizeRadians_upper (a : ℝ) : NormalizeRadians a < Real.pi := by
  have hpi : (0 : ℝ) < 2 * Real.pi := by positivity
  rw [normalizeRadians_arg]
  have h1 : (a + Real.pi) / (2 * Real.pi) <
      ((⌊(a + Real.pi) / (2 * Real.pi)⌋ : ℤ) : ℝ) + 1 := Int.lt_floor_add_one _
  have h2 : a + Real.pi <
      (((⌊(a + Real.pi) / (2 * Real.pi)⌋ : ℤ) : ℝ) + 1) * (2 * Real.pi) :=
    (div_lt_iff₀ hpi).mp h1
  linarith

lemma normalizeRadians_neg_pi : NormalizeRadians (-Real.pi) = -Real.pi := by
  rw [normalizeRadians_arg]
  simp

lemma normalizeRadians_pi : NormalizeRadians Real.pi = -Real.pi := by
  have hpi : (2 : ℝ) * Real.pi ≠ 0 := by positivity
  rw [normalizeRadians_arg]
  have h : (Real.pi + Real.pi) / (2 * Real.pi) = 1 := by
    rw [div_eq_one_iff_eq hpi]; ring
  rw [h]
  simp
  ring

/-! ## Projection lemmas for the unbranched variants -/

lemma unbranchedRect_x_center (o : Options) (r : Rect) :
    (TransformRectUnbranched o r).x_center = r.x_center +
      (r.width * o.shift_x * Real.cos (effectiveRotation o r.rotation) -
       r.height * o.shift_y * Real.sin (effectiveRotation o r.rotation)) := rfl

lemma unbranchedRect_y_center (o : Options) (r : Rect) :
    (TransformRectUnbranched o r).y_center = r.y_center +
      (r.width * o.shift_x * Real.sin (effectiveRotation o r.rotation) +
       r.height * o.shift_y * Real.cos (effectiveRotation o r.rotation)) := rfl

lemma unbranchedRect_width (o : Options) (r : Rect) :
    (TransformRectUnbranched o r).width = (TransformRect o r).width := rfl

lemma unbranchedRect_height (o : Options) (r : Rect) :
    (TransformRectUnbranched o r).height = (TransformRect o r).height := rfl

lemma unbranchedRect_rotation (o : Options) (r : Rect) :
    (TransformRectUnbranched o r).rotation = (TransformRect o r).rotation := rfl

lemma unbranchedNorm_x_center (o : Options) (nr : NormalizedRect) (iw ih : ℤ) :
    (TransformNormalizedRectUnbranched o nr iw ih).x_center = nr.x_center +
      (((iw : ℝ) * nr.width * o.shift_x * Real.cos (effectiveRotation o nr.rotation) -
        (ih : ℝ) * nr.height * o.shift_y * Real.sin (effectiveRotation o nr.rotation)) /
       (iw : ℝ)) := rfl

lemma unbranchedNorm_y_center (o : Options) (nr : NormalizedRect) (iw ih : ℤ) :
    (TransformNormalizedRectUnbranched o nr iw ih).y_center = nr.y_center +
      (((iw : ℝ) * nr.width * o.shift_x * Real.sin (effectiveRotation o nr.rotation) +
        (ih : ℝ) * nr.height * o.shift_y * Real.cos (effectiveRotation o nr.rotation)) /
       (ih : ℝ)) := rfl

lemma unbranchedNorm_width (o : Options) (nr : NormalizedRect) (iw ih : ℤ) :
    (TransformNormalizedRectUnbranched o nr iw ih).width =
      (TransformNormalizedRect o nr iw ih).width := rfl

lemma unbranchedNorm_height (o : Options) (nr : NormalizedRect) (iw ih : ℤ) :
    (TransformNormalizedRectUnbranched o nr iw ih).height =
      (TransformNormalizedRect o nr iw ih).height := rfl

lemma unbranchedNorm_rotation (o : Options) (nr : NormalizedRect) (iw ih : ℤ) :
    (TransformNormalizedRectUnbranched o nr iw ih).rotation =
      (TransformNormalizedRect o nr iw ih).rotation := rfl

/-! ## Claim theorems -/

/-- C1, counterexample: with a rotation delta of `π` and input rotation `0`,
    `TransformRect` returns rotation `0`, while `wrap(r + d) = -π ≠ 0`:
    the output rotation field does not equal `wrap(r + d)`. -/
theorem transformRect_rotation_not_wrapped :
    oRot.rotation = some Real.pi ∧ rect0.rotation = 0 ∧
    (TransformRect oRot rect0).rotation = 0 ∧
    NormalizeRadians (rect0.rotation + Real.pi) = -Real.pi ∧
    (TransformRect oRot rect0).rotation ≠
      NormalizeRadians (rect0.rotation + Real.pi) := by
  have h0 : rect0.rotation = (0 : ℝ) := rfl
  have hw : NormalizeRadians (rect0.rotation + Real.pi) = -Real.pi := by
    rw [h0, zero_add, normalizeRadians_pi]
  refine ⟨rfl, rfl, rfl, hw, ?_⟩
  rw [transformRect_rotation, hw, h0]
  exact fun h => Real.pi_ne_zero (by linarith)

/-- C1, amended: even when a rotation option is set, the rotation field of
    the rectangle returned by `TransformRect` and `TransformNormalizedRect`
    equals the input rotation — the wrapped value `wrap(r + d)` only orients
    the center shift and is never stored; if no rotation option is set the
    output rotation likewise equals the input rotation. -/
theorem transform_rotation_field_is_input (o : Options) (r : Rect)
    (nr : NormalizedRect) (iw ih : ℤ)
    (h : o.rotation.isSome = true ∨ o.rotation_degrees.isSome = true) :
    (TransformRect o r).rotation = r.rotation ∧
    (TransformNormalizedRect o nr iw ih).rotation = nr.rotation :=
  ⟨rfl, rfl⟩

/-- C1, witness: the amended theorem applied at the `π`-delta config. -/
theorem transform_rotation_field_is_input_witness :
    oRot.rotation.isSome = true ∧
    (TransformRect oRot rect0).rotation = rect0.rotation :=
  ⟨rfl, (transform_rotation_field_is_input oRot rect0 nrect3 100 50
      (Or.inl rfl)).1⟩

/-- C2, counterexample: `NormalizeRadians (-π) = -π`, which is outside the
    interval `(-π, π]` the claim asserts. -/
theorem normalizeRadians_neg_pi_outside :
    NormalizeRadians (-Real.pi) = -Real.pi ∧
    ¬(-Real.pi < NormalizeRadians (-Real.pi) ∧
      NormalizeRadians (-Real.pi) ≤ Real.pi) := by
  refine ⟨normalizeRadians_neg_pi, ?_⟩
  rw [normalizeRadians_neg_pi]
  exact fun h => lt_irrefl _ h.1

/-- C2, amended: for every real angle `a`, `NormalizeRadians a` equals
    `a − 2π·⌊(a + π)/(2π)⌋`, and the result lies in the half-open interval
    `[-π, π)` (closed below, open above — not `(-π, π]`). -/
theorem normalizeRadians_formula_and_range (a : ℝ) :
    NormalizeRadians a =
      a - 2 * Real.pi * (⌊(a + Real.pi) / (2 * Real.pi)⌋ : ℤ) ∧
    -Real.pi ≤ NormalizeRadians a ∧ NormalizeRadians a < Real.pi :=
  ⟨normalizeRadians_arg a, normalizeRadians_lower a, normalizeRadians_upper a⟩

/-- C3: with `square_long` set, `TransformNormalizedRect` sets the pre-scale
    width to `max(w·imgW, h·imgH)/imgW` and height to `max(w·imgW, h·imgH)/imgH`
    (`min` for `square_short`), the outputs being those values times
    `scale_x`/`scale_y`; and on the spec's example
    (center (0.5,0.5), 0.2×0.1, image 100×50, square-to-long-side, scale 1)
    the output width is 0.2 and the output height is 0.4. -/
theorem transformNormalizedRect_squaring (o : Options) (nr : NormalizedRect)
    (iw ih : ℤ) :
    (o.square_long.getD false = true →
      (TransformNormalizedRect o nr iw ih).width =
        max (nr.width * (iw : ℝ)) (nr.height * (ih : ℝ)) / (iw : ℝ) * o.scale_x ∧
      (TransformNormalizedRect o nr iw ih).height =
        max (nr.width * (iw : ℝ)) (nr.height * (ih : ℝ)) / (ih : ℝ) * o.scale_y) ∧
    (o.square_long.getD false = false → o.square_short.getD false = true →
      (TransformNormalizedRect o nr iw ih).width =
        min (nr.width * (iw : ℝ)) (nr.height * (ih : ℝ)) / (iw : ℝ) * o.scale_x ∧
      (TransformNormalizedRect o nr iw ih).height =
        min (nr.width * (iw : ℝ)) (nr.height * (ih : ℝ)) / (ih : ℝ) * o.scale_y) ∧
    ((TransformNormalizedRect cfg3 nrect3 100 50).width = 0.2 ∧
     (TransformNormalizedRect cfg3 nrect3 100 50).height = 0.4) := by
  refine ⟨fun hl => ⟨?_, ?_⟩, fun hl hs => ⟨?_, ?_⟩, ⟨?_, ?_⟩⟩
  · rw [transformNormalizedRect_width, hl]; simp
  · rw [transformNormalizedRect_height, hl]; simp
  · rw [transformNormalizedRect_width, hl, hs]; simp
  · rw [transformNormalizedRect_height, hl, hs]; simp
  · rw [transformNormalizedRect_width]
    show (max ((0.2 : ℝ) * ((100 : ℤ) : ℝ)) ((0.1 : ℝ) * ((50 : ℤ) : ℝ)) /
      ((100 : ℤ) : ℝ)) * (1 : ℝ) = 0.2
    norm_num [max_def]
  · rw [transformNormalizedRect_height]
    show (max ((0.2 : ℝ) * ((100 : ℤ) : ℝ)) ((0.1 : ℝ) * ((50 : ℤ) : ℝ)) /
      ((50 : ℤ) : ℝ)) * (1 : ℝ) = 0.4
    norm_num [max_def]

/-- C3, witness: the squaring theorem applied at the spec's example. -/
theorem transformNormalizedRect_squaring_witness :
    cfg3.square_long.getD false = true ∧
    (TransformNormalizedRect cfg3 nrect3 100 50).width =
      max (nrect3.width * ((100 : ℤ) : ℝ)) (nrect3.height * ((50 : ℤ) : ℝ)) /
        ((100 : ℤ) : ℝ) * cfg3.scale_x :=
  ⟨rfl, ((transformNormalizedRect_squaring cfg3 nrect3 100 50).1 rfl).1⟩

/-- C4: on the spec's absolute example — rect (center (0,0), 10×20,
    rotation 0), config shift (1,0), scale (2,2) — `TransformRect` returns
    center (10,0), width 20, height 40, rotation 0. -/
theorem transformRect_example :
    TransformRect cfg4 rect4 =
      { x_center := 10, y_center := 0, width := 20, height := 40,
        rotation := 0 } := by
  have hrot : effectiveRotation cfg4 rect4.rotation = 0 := rfl
  ext
  · rw [transformRect_x_center, if_pos hrot]
    show (0 : ℝ) + 10 * 1 = 10; norm_num
  · rw [transformRect_y_center, if_pos hrot]
    show (0 : ℝ) + 20 * 0 = 0; norm_num
  · rw [transformRect_width]
    show (10 : ℝ) * 2 = 20; norm_num
  · rw [transformRect_height]
    show (20 : ℝ) * 2 = 40; norm_num
  · exact transformRect_rotation cfg4 rect4

/-- C5: `TransformRect` squares the input width/height before the final
    scale — both become `max width height` under `square_long`,
    `min width height` under `square_short`, and stay unchanged with
    neither — and the outputs are those values times `scale_x`/`scale_y`. -/
theorem transformRect_squaring (o : Options) (r : Rect) :
    (o.square_long.getD false = true →
      (TransformRect o r).width = max r.width r.height * o.scale_x ∧
      (TransformRect o r).height = max r.width r.height * o.scale_y) ∧
    (o.square_long.getD false = false → o.square_short.getD false = true →
      (TransformRect o r).width = min r.width r.height * o.scale_x ∧
      (TransformRect o r).height = min r.width r.height * o.scale_y) ∧
    (o.square_long.getD false = false → o.square_short.getD false = false →
      (TransformRect o r).width = r.width * o.scale_x ∧
      (TransformRect o r).height = r.height * o.scale_y) := by
  refine ⟨fun hl => ⟨?_, ?_⟩, fun hl hs => ⟨?_, ?_⟩, fun hl hs => ⟨?_, ?_⟩⟩ <;>
    simp [transformRect_width, transformRect_height, *]

/-- C5, witness: the absolute squaring theorem at a long-side config. -/
theorem transformRect_squaring_witness :
    cfg3.square_long.getD false = true ∧
    (TransformRect cfg3 rect4).width = max rect4.width rect4.height * cfg3.scale_x ∧
    (TransformRect cfg3 rect4).height = max rect4.width rect4.height * cfg3.scale_y :=
  ⟨rfl, (transformRect_squaring cfg3 rect4).1 rfl⟩

/-- C6: when the effective rotation `r'` is nonzero,
    `TransformNormalizedRect` shifts the center by
    `(dx_px·cos r' − dy_px·sin r')/imgW` and `(dx_px·sin r' + dy_px·cos r')/imgH`
    with `dx_px = width·imgW·shift_x`, `dy_px = height·imgH·shift_y`; when
    `r'` is exactly 0 it shifts by `shift_x·width` and `shift_y·height`. -/
theorem transformNormalizedRect_shift (o : Options) (nr : NormalizedRect)
    (iw ih : ℤ) :
    (effectiveRotation o nr.rotation ≠ 0 →
      (TransformNormalizedRect o nr iw ih).x_center = nr.x_center +
        (nr.width * (iw : ℝ) * o.shift_x *
           Real.cos (effectiveRotation o nr.rotation) -
         nr.height * (ih : ℝ) * o.shift_y *
           Real.sin (effectiveRotation o nr.rotation)) / (iw : ℝ) ∧
      (TransformNormalizedRect o nr iw ih).y_center = nr.y_center +
        (nr.width * (iw : ℝ) * o.shift_x *
           Real.sin (effectiveRotation o nr.rotation) +
         nr.height * (ih : ℝ) * o.shift_y *
           Real.cos (effectiveRotation o nr.rotation)) / (ih : ℝ)) ∧
    (effectiveRotation o nr.rotation = 0 →
      (TransformNormalizedRect o nr iw ih).x_center =
        nr.x_center + o.shift_x * nr.width ∧
      (TransformNormalizedRect o nr iw ih).y_center =
        nr.y_center + o.shift_y * nr.height) := by
  refine ⟨fun h => ⟨?_, ?_⟩, fun h => ⟨?_, ?_⟩⟩
  · rw [transformNormalizedRect_x_center, if_neg h]; ring
  · rw [transformNormalizedRect_y_center, if_neg h]; ring
  · rw [transformNormalizedRect_x_center, if_pos h]; ring
  · rw [transformNormalizedRect_y_center, if_pos h]; ring

/-- C6, witness: the shift theorem at a rect whose rotation is `π`. -/
theorem transformNormalizedRect_shift_witness :
    effectiveRotation cfgShift nrectPi.rotation ≠ 0 ∧
    (TransformNormalizedRect cfgShift nrectPi 100 50).x_center =
      nrectPi.x_center +
        (nrectPi.width * ((100 : ℤ) : ℝ) * cfgShift.shift_x *
           Real.cos (effectiveRotation cfgShift nrectPi.rotation) -
         nrectPi.height * ((50 : ℤ) : ℝ) * cfgShift.shift_y *
           Real.sin (effectiveRotation cfgShift nrectPi.rotation)) /
        ((100 : ℤ) : ℝ) := by
  have h : effectiveRotation cfgShift nrectPi.rotation ≠ 0 := by
    show Real.pi ≠ 0
    exact Real.pi_ne_zero
  exact ⟨h, ((transformNormalizedRect_shift cfgShift nrectPi 100 50).1 h).1⟩

/-- C7: setup validation fails exactly when both rotation options are
    present or both squaring options are present; every other configuration
    passes.  (The per-record transforms are total functions of their
    inputs, so no per-record failure exists in the model.) -/
theorem openCheck_fails_iff (o : Options) :
    OpenCheck o = false ↔
      (o.rotation.isSome = true ∧ o.rotation_degrees.isSome = true) ∨
      (o.square_long.isSome = true ∧ o.square_short.isSome = true) := by
  unfold OpenCheck
  cases hr : o.rotation.isSome <;> cases hd : o.rotation_degrees.isSome <;>
    cases hl : o.square_long.isSome <;> cases hs : o.square_short.isSome <;>
    simp

/-- C7, witness: a both-rotations config fails setup; the spec's absolute
    example config passes. -/
theorem openCheck_fails_iff_witness :
    OpenCheck oBad = false ∧ OpenCheck cfg4 = true :=
  ⟨(openCheck_fails_iff oBad).mpr (Or.inl ⟨rfl, rfl⟩), rfl⟩

/-- C8: both transforms leave the rotation field equal to its input value
    for every configuration and input; the rotation field is never
    written. -/
theorem transform_never_writes_rotation (o : Options) (r : Rect)
    (nr : NormalizedRect) (iw ih : ℤ) :
    (TransformRect o r).rotation = r.rotation ∧
    (TransformNormalizedRect o nr iw ih).rotation = nr.rotation :=
  ⟨transformRect_rotation o r, transformNormalizedRect_rotation o nr iw ih⟩

/-- C9: removing the `rotation == 0` branch and always using the cos/sin
    shift formula yields the same output rectangle, for `TransformRect`
    unconditionally and for `TransformNormalizedRect` whenever the image
    dimensions are nonzero. -/
theorem transform_unbranched_eq (o : Options) (r : Rect)
    (nr : NormalizedRect) (iw ih : ℤ)
    (hw : (iw : ℝ) ≠ 0) (hh : (ih : ℝ) ≠ 0) :
    TransformRectUnbranched o r = TransformRect o r ∧
    TransformNormalizedRectUnbranched o nr iw ih =
      TransformNormalizedRect o nr iw ih := by
  constructor
  · ext
    · rw [unbranchedRect_x_center, transformRect_x_center]
      by_cases h : effectiveRotation o r.rotation = 0
      · rw [if_pos h, h]; simp
      · rw [if_neg h]
    · rw [unbranchedRect_y_center, transformRect_y_center]
      by_cases h : effectiveRotation o r.rotation = 0
      · rw [if_pos h, h]; simp
      · rw [if_neg h]
    · exact unbranchedRect_width o r
    · exact unbranchedRect_height o r
    · exact unbranchedRect_rotation o r
  · ext
    · rw [unbranchedNorm_x_center, transformNormalizedRect_x_center]
      by_cases h : effectiveRotation o nr.rotation = 0
      · rw [if_pos h, h]; simp; field_simp; ring
      · rw [if_neg h]
    · rw [unbranchedNorm_y_center, transformNormalizedRect_y_center]
      by_cases h : effectiveRotation o nr.rotation = 0
      · rw [if_pos h, h]; simp; field_simp; ring
      · rw [if_neg h]
    · exact unbranchedNorm_width o nr iw ih
    · exact unbranchedNorm_height o nr iw ih
    · exact unbranchedNorm_rotation o nr iw ih

/-- C9, witness: the refinement theorem at image size 100×50. -/
theorem transform_unbranched_eq_witness :
    ((100 : ℤ) : ℝ) ≠ 0 ∧ ((50 : ℤ) : ℝ) ≠ 0 ∧
    (TransformRectUnbranched cfgShift rectPi = TransformRect cfgShift rectPi ∧
     TransformNormalizedRectUnbranched cfgShift nrectPi 100 50 =
       TransformNormalizedRect cfgShift nrectPi 100 50) :=
  ⟨by norm_num, by norm_num,
    transform_unbranched_eq cfgShift rectPi nrectPi 100 50
      (by norm_num) (by norm_num)⟩

/-- C10: with `shift_x = 0` and `shift_y = 0`, both transforms leave the
    center unchanged for every input rotation and image size. -/
theorem center_unchanged_of_zero_shift (o : Options) (r : Rect)
    (nr : NormalizedRect) (iw ih : ℤ)
    (hx : o.shift_x = 0) (hy : o.shift_y = 0) :
    (TransformRect o r).x_center = r.x_center ∧
    (TransformRect o r).y_center = r.y_center ∧
    (TransformNormalizedRect o nr iw ih).x_center = nr.x_center ∧
    (TransformNormalizedRect o nr iw ih).y_center = nr.y_center := by
  refine ⟨?_, ?_, ?_, ?_⟩
  · rw [transformRect_x_center]; split_ifs <;> simp [hx, hy]
  · rw [transformRect_y_center]; split_ifs <;> simp [hx, hy]
  · rw [transformNormalizedRect_x_center]; split_ifs <;> simp [hx, hy]
  · rw [transformNormalizedRect_y_center]; split_ifs <;> simp [hx, hy]

/-- C10, witness: the zero-shift theorem at rects whose rotation is `π`. -/
theorem center_unchanged_of_zero_shift_witness :
    cfg3.shift_x = 0 ∧ cfg3.shift_y = 0 ∧
    ((TransformRect cfg3 rectPi).x_center = rectPi.x_center ∧
     (TransformRect cfg3 rectPi).y_center = rectPi.y_center ∧
     (TransformNormalizedRect cfg3 nrectPi 100 50).x_center = nrectPi.x_center ∧
     (TransformNormalizedRect cfg3 nrectPi 100 50).y_center = nrectPi.y_center) :=
  ⟨rfl, rfl, center_unchanged_of_zero_shift cfg3 rectPi nrectPi 100 50 rfl rfl⟩

end Mediapipe
